import Mathlib

/-!
# libsdi12 — a shallow embedding of the SDI-12 v1.4 protocol library

This file embeds the C sources of libsdi12 (sdi12_crc.c, sdi12_sensor.c,
sdi12_master.c) into Lean 4 and proves properties of the embedded code.

Modelling conventions:
* Bytes are `Nat` (values `0..255` in practice); strings are `List Nat`
  of their bytes (C strings are NUL-terminated, so a byte list models the
  content before the terminator).
* Data sent through the `send_response` callback is collected as a list of
  chunks, one chunk per callback invocation.
* C `float` values cannot be embedded bit-exactly; measurement values are
  modelled as rationals.  No theorem below depends on the digits produced
  by float formatting, only on framing, counts and state.
* Fixed-size C arrays paired with a count (`params[]`/`param_count`,
  `data_cache[]`/`data_cache_count`) are modelled as Lean lists whose
  length is the count.
-/

namespace Sdi12

/-- ASCII carriage return. -/
def CR : Nat := 13
/-- ASCII line feed. -/
def LF : Nat := 10

/-- SDI12_MAX_PARAMS from sdi12.h. -/
def MAX_PARAMS : Nat := 20
/-- SDI12_MAX_XCMDS from sdi12.h. -/
def MAX_XCMDS : Nat := 8
/-- SDI12_MAX_RESPONSE_LEN from sdi12.h (sensor resp_buf capacity). -/
def MAX_RESPONSE_LEN : Nat := 82
/-- SDI12_M_VALUES_MAX_CHARS from sdi12.h. -/
def M_VALUES_MAX_CHARS : Nat := 35
/-- SDI12_C_VALUES_MAX_CHARS from sdi12.h. -/
def C_VALUES_MAX_CHARS : Nat := 75
/-- SDI12_VALUE_MAX_CHARS from sdi12.h. -/
def VALUE_MAX_CHARS : Nat := 9
/-- SDI12_MAX_MEAS_GROUPS from sdi12.h. -/
def MAX_MEAS_GROUPS : Nat := 10
/-- SDI12_CMD_MAX_CHARS from sdi12.h. -/
def CMD_MAX_CHARS : Nat := 20
/-- Capacity of the master resp_buf (SDI12_RESP_MAX_CHARS + 4). -/
def MASTER_RESP_BUF : Nat := 86

/-- sdi12_err_t from sdi12.h. -/
inductive SdiErr where
  | ok
  | invalidAddress
  | invalidCommand
  | bufferOverflow
  | notAddressed
  | noData
  | paramLimit
  | callbackMissing
  | timeout
  | crcMismatch
  | parseFailed
  | aborted
  deriving DecidableEq, Repr

/-- sdi12_meas_type_t from sdi12.h. -/
inductive MeasType where
  | standard
  | concurrent
  | highvolAscii
  | highvolBinary
  | verification
  | continuous
  deriving DecidableEq, Repr

/-- sdi12_state_t from sdi12.h. -/
inductive SdiState where
  | standby
  | ready
  | measuring
  | measuringC
  | dataReady
  deriving DecidableEq, Repr

/-- sdi12_valid_address from sdi12.h: '0'-'9', 'A'-'Z', 'a'-'z'. -/
def validAddress (c : Nat) : Bool :=
  (48 ≤ c && c ≤ 57) || (65 ≤ c && c ≤ 90) || (97 ≤ c && c ≤ 122)

/-! ## CRC codec (sdi12_crc.c) -/

/-- One bit step of the CRC-16-IBM loop: shift right, conditionally XOR
with the reflected polynomial 0xA001. -/
def crc16Bit (crc : Nat) : Nat :=
  if crc % 2 = 1 then (crc / 2) ^^^ 0xA001 else crc / 2

/-- Process one data byte: XOR into the CRC and run 8 bit steps. -/
def crc16Byte (crc b : Nat) : Nat :=
  (crc16Bit ∘ crc16Bit ∘ crc16Bit ∘ crc16Bit ∘
   crc16Bit ∘ crc16Bit ∘ crc16Bit ∘ crc16Bit) (crc ^^^ b)

/-- sdi12_crc16 from sdi12_crc.c: CRC-16-IBM, init 0x0000. -/
def sdi12_crc16 (data : List Nat) : Nat :=
  data.foldl crc16Byte 0

/-- sdi12_crc_encode_ascii from sdi12_crc.c: three printable bytes,
each 6-bit group OR-ed with 0x40. -/
def crcEncodeAscii (crc : Nat) : List Nat :=
  [0x40 ||| (crc >>> 12), 0x40 ||| ((crc >>> 6) &&& 0x3F), 0x40 ||| (crc &&& 0x3F)]

/-- The data length sdi12_crc_append computes: the string length, minus a
trailing CR LF pair when present. -/
def crcDataEnd (buf : List Nat) : Nat :=
  let slen := buf.length
  if 2 ≤ slen ∧ buf.getD (slen - 2) 0 = CR ∧ buf.getD (slen - 1) 0 = LF then
    slen - 2
  else
    slen

/-- sdi12_crc_append from sdi12_crc.c.  Returns `none` on
SDI12_ERR_BUFFER_OVERFLOW (the C function then leaves the buffer
untouched), otherwise the new buffer content
`data || crc3 || CR || LF`. -/
def sdi12_crc_append (buf : List Nat) (buflen : Nat) : Option (List Nat) :=
  let dataEnd := crcDataEnd buf
  if buflen < dataEnd + 3 + 2 + 1 then
    none
  else
    let data := buf.take dataEnd
    some (data ++ crcEncodeAscii (sdi12_crc16 data) ++ [CR, LF])

/-- sdi12_crc_append_n.  Modelled from the spec: the implementation of
this function is not among the provided sources (only its declaration in
sdi12.h and its caller in sdi12_sensor.c are).  Per spec §4.A, the
`append_len` variant takes an explicit data length so binary payloads
containing zero bytes stay intact, produces `data || crc3 || CR || LF`,
and fails with BufferOverflow when the result would not fit. -/
def sdi12_crc_append_n (buf : List Nat) (dataLen buflen : Nat) : Option (List Nat) :=
  if buflen < dataLen + 3 + 2 + 1 then
    none
  else
    let data := buf.take dataLen
    some (data ++ crcEncodeAscii (sdi12_crc16 data) ++ [CR, LF])

/-- sdi12_crc_verify from sdi12_crc.c. -/
def sdi12_crc_verify (buf : List Nat) (len : Nat) : Bool :=
  if len < 6 then
    false
  else
    let e1 := if buf.getD (len - 1) 0 = LF then len - 1 else len
    let e2 := if 0 < e1 ∧ buf.getD (e1 - 1) 0 = CR then e1 - 1 else e1
    if e2 < 3 then
      false
    else
      let dataEnd := e2 - 3
      let expected := crcEncodeAscii (sdi12_crc16 (buf.take dataEnd))
      buf.getD dataEnd 0 = expected.getD 0 0 &&
      buf.getD (dataEnd + 1) 0 = expected.getD 1 0 &&
      buf.getD (dataEnd + 2) 0 = expected.getD 2 0

/-! ## Decimal formatting helpers -/

/-- Is the byte an ASCII decimal digit. -/
def isDigitByte (b : Nat) : Bool := 48 ≤ b && b ≤ 57

/-- isprint from ctype.h (ASCII locale). -/
def isPrintByte (b : Nat) : Bool := 32 ≤ b && b ≤ 126

/-- Decimal digits of a natural number as ASCII bytes (printf %u). -/
def natDigits (n : Nat) : List Nat := (Nat.toDigits 10 n).map Char.toNat

/-- Zero-padded decimal of width `w` (printf %0wu; wider numbers keep
all their digits, as in C). -/
def zeroPad (w n : Nat) : List Nat :=
  List.replicate (w - (natDigits n).length) 48 ++ natDigits n

/-! ## Value model (sdi12_value_t)

C `float` is modelled as `Rat`; `%.*f` rounding is modelled as round
half up.  No theorem below depends on the digits produced here. -/

/-- sdi12_value_t from sdi12.h. -/
structure Value where
  value : Rat
  decimals : Nat
  deriving DecidableEq, Repr

/-- format_value from sdi12_sensor.c: mandatory sign, then either the
truncated integer magnitude (decimals = 0) or the magnitude with exactly
`decimals` fractional digits (`%.*f`, round half up).  The rational
`p/q` is processed through its numerator and denominator so everything
is computable integer arithmetic. -/
def formatValue (v : Value) : List Nat :=
  let sign : Nat := if 0 ≤ v.value.num then 43 else 45
  let a : Nat := v.value.num.natAbs
  let den : Nat := v.value.den
  if v.decimals = 0 then
    sign :: natDigits (a / den)
  else
    let scale : Nat := 10 ^ v.decimals
    let scaled : Nat := (2 * a * scale + den) / (2 * den)
    sign :: natDigits (scaled / scale) ++ [46] ++ zeroPad v.decimals (scaled % scale)

/-! ## Sensor data model (sdi12_sensor.h) -/

/-- sdi12_ident_t from sdi12.h. -/
structure Ident where
  vendor : List Nat
  model : List Nat
  firmwareVersion : List Nat
  serial : List Nat
  deriving DecidableEq, Repr

/-- sdi12_param_reg_t from sdi12_sensor.h (meta fields inlined). -/
structure Param where
  shef : List Nat
  units : List Nat
  group : Nat
  decimals : Nat
  active : Bool
  deriving DecidableEq, Repr, Inhabited

/-- sdi12_xcmd_reg_t from sdi12_sensor.h.  The handler receives the
command body (after `aX`) and the pre-placed buffer content, and returns
the error code together with the new buffer content. -/
structure Xcmd where
  pfx : List Nat
  handler : List Nat → List Nat → SdiErr × List Nat
  active : Bool

/-- sdi12_sensor_callbacks_t from sdi12_sensor.h.  Required callbacks
are modelled by presence flags (the engine only branches on their
presence) plus, for read_param, the function itself; optional hooks are
`Option`s. -/
structure Callbacks where
  hasSendResponse : Bool
  hasSetDirection : Bool
  hasReadParam : Bool
  readParam : Nat → Value
  startMeasurement : Option (Nat → MeasType → Nat)
  hasServiceRequest : Bool
  formatBinaryPage : Option (Nat → List Value → List Nat)
  hasSaveAddress : Bool
  loadAddress : Option Nat

/-- sdi12_sensor_ctx_t from sdi12_sensor.h.  `params`, `xcmds` and
`dataCache` model the fixed C arrays together with their counts
(`param_count`, `xcmd_count`, `data_cache_count`) as lists whose length
is the count. -/
structure SensorCtx where
  address : Nat
  ident : Ident
  cb : Callbacks
  params : List Param
  xcmds : List Xcmd
  state : SdiState
  pendingMeasType : MeasType
  pendingMeasGroup : Nat
  crcRequested : Bool
  dataCache : List Value
  dataAvailable : Bool
  respLen : Nat

/-- send_response from sdi12_sensor.c: one chunk through the callback
when it is installed, nothing otherwise. -/
def emit (ctx : SensorCtx) (resp : List Nat) : List (List Nat) :=
  if ctx.cb.hasSendResponse then [resp] else []

/-- count_group from sdi12_sensor.c. -/
def countGroup (ctx : SensorCtx) (group : Nat) : Nat :=
  (ctx.params.filter (fun p => p.active && p.group == group)).length

/-- collect_group_indices from sdi12_sensor.c. -/
def collectGroupIndices (ctx : SensorCtx) (group max : Nat) : List Nat :=
  ((List.range ctx.params.length).filter (fun i =>
    match ctx.params.get? i with
    | some p => p.active && p.group == group
    | none => false)).take max

/-- read_group_sync from sdi12_sensor.c: refills the data cache from the
read_param callback (no callback: the cache stays empty) and sets
data_available. -/
def readGroupSync (ctx : SensorCtx) (group : Nat) : SensorCtx :=
  let idx := collectGroupIndices ctx group MAX_PARAMS
  let cache := if ctx.cb.hasReadParam then (idx.take MAX_PARAMS).map ctx.cb.readParam else []
  { ctx with dataCache := cache, dataAvailable := true }

/-! ## ASCII data pagination (format_data_page) -/

/-- The while loop of format_data_page from sdi12_sensor.c.  State is
`(current_page, pos, written bytes, any_on_page)`; returns the final
`(pos, written, any_on_page)`.  Note that `pos` is reset to 1 when a new
page starts, including right before the `current_page > page` early
exit — faithful to the source. -/
def formatPageLoop (page maxChars buflen : Nat) :
    List Value → Nat → Nat → List Nat → Bool → Nat × List Nat × Bool
  | [], _, pos, acc, any => (pos, acc, any)
  | v :: rest, currentPage, pos, acc, any =>
    let vbuf := formatValue v
    let vlen := vbuf.length
    if vlen = 0 then
      formatPageLoop page maxChars buflen rest currentPage pos acc any
    else
      let pageUsed := pos - 1
      let st := if maxChars < pageUsed + vlen ∧ 0 < pageUsed then
          (currentPage + 1, 1)
        else (currentPage, pos)
      let cp := st.1
      let pos := st.2
      if cp = page then
        if buflen - 6 ≤ pos + vlen then (pos, acc, any)
        else formatPageLoop page maxChars buflen rest cp (pos + vlen) (acc ++ vbuf) true
      else if page < cp then (pos, acc, any)
      else formatPageLoop page maxChars buflen rest cp pos acc any

/-- format_data_page from sdi12_sensor.c.  The buffer content is the
address byte followed by the first `pos - 1` written value bytes (the
NUL is placed at `pos`, discarding bytes written beyond a page reset);
then CRC + CRLF or plain CRLF is appended. -/
def formatDataPage (ctx : SensorCtx) (page maxValueChars : Nat) : List Nat :=
  let r := formatPageLoop page maxValueChars MAX_RESPONSE_LEN ctx.dataCache 0 1 [] false
  let pos := if ¬ r.2.2 ∧ 0 < page then 1 else r.1
  let base := ctx.address :: r.2.1.take (pos - 1)
  if ctx.crcRequested then
    (sdi12_crc_append base MAX_RESPONSE_LEN).getD base
  else
    if pos + 2 < MAX_RESPONSE_LEN then base ++ [CR, LF] else base

/-! ## Sensor command handlers (sdi12_sensor.c) -/

/-- handle_acknowledge from sdi12_sensor.c (`a!` / `?!`). -/
def handleAcknowledge (ctx : SensorCtx) : SdiErr × SensorCtx × List (List Nat) :=
  (.ok, ctx, emit ctx [ctx.address, CR, LF])

/-- printf %-W.Ws: truncate to `w` bytes, right-pad with spaces. -/
def padTrunc (s : List Nat) (w : Nat) : List Nat :=
  s.take w ++ List.replicate (w - s.length) 32

/-- handle_identify from sdi12_sensor.c (`aI!`). -/
def handleIdentify (ctx : SensorCtx) : SdiErr × SensorCtx × List (List Nat) :=
  (.ok, ctx, emit ctx (ctx.address :: ([49, 52] ++
    padTrunc ctx.ident.vendor 8 ++ padTrunc ctx.ident.model 6 ++
    padTrunc ctx.ident.firmwareVersion 3 ++ ctx.ident.serial ++ [CR, LF])))

/-- handle_measurement from sdi12_sensor.c (`aM!`/`aC!`/`aV!`/`aHA!`/`aHB!`
families).  The `none` formatting arm (reachable only for
`continuous`, which the dispatcher never passes) emits an empty chunk. -/
def handleMeasurement (ctx0 : SensorCtx) (group : Nat) (withCrc : Bool) (t : MeasType) :
    SdiErr × SensorCtx × List (List Nat) :=
  let ctx := { ctx0 with crcRequested := withCrc, pendingMeasType := t,
                         pendingMeasGroup := group }
  let n := countGroup ctx group
  if n = 0 then
    let resp := if t = .standard ∨ t = .verification then
        ctx.address :: [48, 48, 48, 48, CR, LF]
      else
        ctx.address :: [48, 48, 48, 48, 48, CR, LF]
    (.ok, ctx, emit ctx resp)
  else
    match ctx.cb.startMeasurement with
    | some start =>
      let ttt := min (start group t) 999
      let r : Option (List Nat × SdiState) :=
        if t = .standard ∨ t = .verification then
          some (ctx.address :: zeroPad 3 ttt ++ natDigits (min n 9) ++ [CR, LF],
                if 0 < ttt then .measuring else .dataReady)
        else if t = .concurrent then
          some (ctx.address :: zeroPad 3 ttt ++ zeroPad 2 (min n 99) ++ [CR, LF],
                if 0 < ttt then .measuringC else .dataReady)
        else if t = .highvolAscii ∨ t = .highvolBinary then
          some (ctx.address :: zeroPad 3 ttt ++ zeroPad 3 n ++ [CR, LF],
                if 0 < ttt then .measuringC else .dataReady)
        else none
      let ctx := match r with
        | some p => { ctx with state := p.2 }
        | none => ctx
      let ctx := if ttt = 0 then readGroupSync ctx group
        else { ctx with dataAvailable := false }
      (.ok, ctx, emit ctx (match r with | some p => p.1 | none => []))
    | none =>
      let ctx := readGroupSync ctx group
      let resp :=
        if t = .standard ∨ t = .verification then
          ctx.address :: [48, 48, 48] ++ natDigits (min n 9) ++ [CR, LF]
        else if t = .concurrent then
          ctx.address :: [48, 48, 48] ++ zeroPad 2 (min n 99) ++ [CR, LF]
        else
          ctx.address :: [48, 48, 48] ++ zeroPad 3 n ++ [CR, LF]
      let ctx := { ctx with state := .dataReady }
      (.ok, ctx, emit ctx resp)

/-- The 6-byte empty binary packet of handle_send_binary_data:
`addr || 0x0000 || 0x00 || CRC(2, little-endian)`. -/
def emptyBinaryPacket (addr : Nat) : List Nat :=
  let pkt4 : List Nat := [addr, 0, 0, 0]
  let crc := sdi12_crc16 pkt4
  pkt4 ++ [crc % 256, (crc / 256) % 256]

/-- handle_send_binary_data from sdi12_sensor.c (`aDBn!`). -/
def handleSendBinaryData (ctx : SensorCtx) (page : Nat) :
    SdiErr × SensorCtx × List (List Nat) :=
  if !ctx.dataAvailable || ctx.cb.formatBinaryPage.isNone then
    (.ok, { ctx with respLen := 6 }, emit ctx (emptyBinaryPacket ctx.address))
  else
    match ctx.cb.formatBinaryPage with
    | none => (.ok, { ctx with respLen := 6 }, emit ctx (emptyBinaryPacket ctx.address))
    | some hook =>
      let out := hook page ctx.dataCache
      if out.length = 0 then
        (.ok, { ctx with respLen := 6 }, emit ctx (emptyBinaryPacket ctx.address))
      else
        let dataType := out.getD 0 0
        let payloadSize := out.length - 1
        let pkt := [ctx.address, payloadSize % 256, (payloadSize / 256) % 256, dataType] ++
          out.drop 1
        let crc := sdi12_crc16 pkt
        let full := pkt ++ [crc % 256, (crc / 256) % 256]
        (.ok, { ctx with respLen := full.length }, emit ctx full)

/-- handle_send_data from sdi12_sensor.c (`aDn!`). -/
def handleSendData (ctx : SensorCtx) (page : Nat) : SdiErr × SensorCtx × List (List Nat) :=
  if ¬ ctx.dataAvailable then
    let resp := if ctx.crcRequested then
        (sdi12_crc_append [ctx.address] MAX_RESPONSE_LEN).getD [ctx.address]
      else [ctx.address, CR, LF]
    (.ok, ctx, emit ctx resp)
  else
    match ctx.cb.formatBinaryPage, decide (ctx.pendingMeasType = .highvolBinary) with
    | some hook, true =>
      let payload := hook page ctx.dataCache
      let pos := 1 + payload.length
      let base := ctx.address :: payload
      if ctx.crcRequested then
        let resp := (sdi12_crc_append_n base pos MAX_RESPONSE_LEN).getD base
        (.ok, { ctx with respLen := pos + 3 + 2 }, emit ctx resp)
      else
        let resp := if pos + 2 < MAX_RESPONSE_LEN then base ++ [CR, LF] else base
        (.ok, { ctx with respLen := pos + 2 }, emit ctx resp)
    | _, _ =>
      let maxChars := if ctx.pendingMeasType = .concurrent ∨
          ctx.pendingMeasType = .continuous ∨ ctx.pendingMeasType = .highvolAscii then
          C_VALUES_MAX_CHARS
        else M_VALUES_MAX_CHARS
      (.ok, ctx, emit ctx (formatDataPage ctx page maxChars))

/-- handle_continuous from sdi12_sensor.c (`aRn!`/`aRCn!`). -/
def handleContinuous (ctx0 : SensorCtx) (index : Nat) (withCrc : Bool) :
    SdiErr × SensorCtx × List (List Nat) :=
  let ctx := { ctx0 with crcRequested := withCrc, pendingMeasType := .continuous }
  let n := countGroup ctx index
  if n = 0 then
    let resp := if withCrc then
        (sdi12_crc_append [ctx.address] MAX_RESPONSE_LEN).getD [ctx.address]
      else [ctx.address, CR, LF]
    (.ok, ctx, emit ctx resp)
  else
    let ctx := readGroupSync ctx index
    (.ok, ctx, emit ctx (formatDataPage ctx 0 C_VALUES_MAX_CHARS))

/-- handle_change_address from sdi12_sensor.c (`aAb!`).  The
save_address hook is a host side effect without engine state. -/
def handleChangeAddress (ctx : SensorCtx) (newAddr : Nat) :
    SdiErr × SensorCtx × List (List Nat) :=
  if ¬ validAddress newAddr then (.invalidAddress, ctx, [])
  else
    let ctx := { ctx with address := newAddr }
    (.ok, ctx, emit ctx [newAddr, CR, LF])

/-- handle_highvol_stub from sdi12_sensor.c (`aH!`). -/
def handleHighvolStub (ctx : SensorCtx) : SdiErr × SensorCtx × List (List Nat) :=
  (.ok, ctx, emit ctx (ctx.address :: [48, 48, 48, 48, 48, 48, CR, LF]))

/-- parse_digits from sdi12_master.c (also models the bounded digit
loops in sdi12_sensor.c): value and number of digits consumed, reading
at most `max` leading digits. -/
def parseDigits (s : List Nat) (max : Nat) : Nat × Nat :=
  let ds := (s.take max).takeWhile isDigitByte
  (ds.foldl (fun a d => a * 10 + (d - 48)) 0, ds.length)

/-- handle_identify_measurement from sdi12_sensor.c
(`aIM!`/`aIC!`/`aIV!`/`aIH*!`/`aIR*!`, with optional `_nnn`). -/
def handleIdentifyMeasurement (ctx0 : SensorCtx) (c : List Nat) :
    SdiErr × SensorCtx × List (List Nat) :=
  let len := c.length
  if len < 3 then (.invalidCommand, ctx0, [])
  else
    let subcmd := c.getD 2 0
    match (c.drop 2).findIdx? (fun b => b == 95) with
    | some u0 =>
      let u := u0 + 2
      let paramNum := (parseDigits (c.drop (u + 1)) (c.drop (u + 1)).length).1
      let group :=
        if subcmd = 77 ∨ subcmd = 67 then
          let afterMC := if c.getD 3 0 = 67 then 4 else 3
          let ch := c.getD afterMC 0
          if 49 ≤ ch ∧ ch ≤ 57 ∧ afterMC < u then ch - 48 else 0
        else if subcmd = 82 then
          let ch := c.getD 3 0
          if 48 ≤ ch ∧ ch ≤ 57 then ch - 48 else 0
        else 0
      let indices := collectGroupIndices ctx0 group MAX_PARAMS
      let n := indices.length
      let crc := ((c.drop 2).take (u - 2)).contains 67
      if 1 ≤ paramNum ∧ paramNum ≤ n then
        let idx := indices.getD (paramNum - 1) 0
        let p := ctx0.params.getD idx default
        let ctx := { ctx0 with crcRequested := crc }
        let base := ctx.address :: 44 :: p.shef ++ [44] ++ p.units ++ [59]
        let resp := if crc then (sdi12_crc_append base MAX_RESPONSE_LEN).getD base
          else base ++ [CR, LF]
        (.ok, ctx, emit ctx resp)
      else
        let resp := if crc then
            (sdi12_crc_append [ctx0.address] MAX_RESPONSE_LEN).getD [ctx0.address]
          else [ctx0.address, CR, LF]
        (.ok, ctx0, emit ctx0 resp)
    | none =>
      let resp :=
        if subcmd = 77 then
          let crc := 3 < len ∧ c.getD 3 0 = 67
          let dp := if crc then 4 else 3
          let g := if dp < len ∧ 49 ≤ c.getD dp 0 ∧ c.getD dp 0 ≤ 57 then c.getD dp 0 - 48 else 0
          ctx0.address :: [48, 48, 48] ++ natDigits (min (countGroup ctx0 g) 9) ++ [CR, LF]
        else if subcmd = 67 then
          let crc := 3 < len ∧ c.getD 3 0 = 67
          let dp := if crc then 4 else 3
          let g := if dp < len ∧ 49 ≤ c.getD dp 0 ∧ c.getD dp 0 ≤ 57 then c.getD dp 0 - 48 else 0
          ctx0.address :: [48, 48, 48] ++ zeroPad 2 (min (countGroup ctx0 g) 99) ++ [CR, LF]
        else if subcmd = 86 then
          ctx0.address :: [48, 48, 48] ++ natDigits (min (countGroup ctx0 0) 9) ++ [CR, LF]
        else if subcmd = 72 then
          if 3 < len ∧ (c.getD 3 0 = 65 ∨ c.getD 3 0 = 66) then
            ctx0.address :: [48, 48, 48] ++ zeroPad 3 (countGroup ctx0 0) ++ [CR, LF]
          else
            ctx0.address :: [48, 48, 48, 48, 48, 48, CR, LF]
        else if subcmd = 82 then
          let g := if 3 < len ∧ 48 ≤ c.getD 3 0 ∧ c.getD 3 0 ≤ 57 then c.getD 3 0 - 48 else 0
          ctx0.address :: [48, 48, 48] ++ zeroPad 2 (min (countGroup ctx0 g) 99) ++ [CR, LF]
        else
          ctx0.address :: [48, 48, 48, 48, CR, LF]
      (.ok, ctx0, emit ctx0 resp)

/-- The first-match scan of handle_extended from sdi12_sensor.c. -/
def findXcmd (xcmds : List Xcmd) (body : List Nat) : Option Xcmd :=
  xcmds.find? (fun x => x.active && (x.pfx.length ≤ body.length : Bool) &&
    (body.take x.pfx.length == x.pfx))

/-- handle_extended from sdi12_sensor.c (`aX…!`): first matching
registered handler runs; its successful response is CRLF-terminated and
sent; a failing handler emits nothing; no match replies with just the
address. -/
def handleExtended (ctx : SensorCtx) (c : List Nat) :
    SdiErr × SensorCtx × List (List Nat) :=
  let body := c.drop 2
  match findXcmd ctx.xcmds body with
  | some x =>
    let r := x.handler body [ctx.address]
    if r.1 = .ok then
      let resp := r.2
      let slen := resp.length
      let resp :=
        if slen < 2 ∨ resp.getD (slen - 2) 0 ≠ CR ∨ resp.getD (slen - 1) 0 ≠ LF then
          if slen + 2 < MAX_RESPONSE_LEN then resp ++ [CR, LF] else resp
        else resp
      (.ok, ctx, emit ctx resp)
    else (r.1, ctx, [])
  | none => (.ok, ctx, emit ctx [ctx.address, CR, LF])

/-- The page-number accumulation loops of sdi12_sensor_process (uint16
arithmetic). -/
def parsePageFrom (c : List Nat) (start : Nat) : Nat :=
  ((c.drop start).takeWhile isDigitByte).foldl (fun a d => (a * 10 + (d - 48)) % 65536) 0

/-- The command dispatch of sdi12_sensor_process (everything after the
addressing check and the concurrent-abort), on the `!`-stripped command
`c` (so `c.length` is the C `cmdlen`). -/
def processDispatch (ctx : SensorCtx) (c : List Nat) : SdiErr × SensorCtx × List (List Nat) :=
  let cmdlen := c.length
  if cmdlen = 1 then handleAcknowledge ctx
  else
    match c.getD 1 0 with
          | 73 =>
            if cmdlen = 2 then handleIdentify ctx
            else handleIdentifyMeasurement ctx c
          | 77 =>
            let crc := 2 < cmdlen ∧ c.getD 2 0 = 67
            let dp := if crc then 3 else 2
            let group := if dp < cmdlen ∧ 49 ≤ c.getD dp 0 ∧ c.getD dp 0 ≤ 57 then
                c.getD dp 0 - 48
              else 0
            handleMeasurement ctx group (decide crc) .standard
          | 67 =>
            let crc := 2 < cmdlen ∧ c.getD 2 0 = 67
            let dp := if crc then 3 else 2
            let group := if dp < cmdlen ∧ 49 ≤ c.getD dp 0 ∧ c.getD dp 0 ≤ 57 then
                c.getD dp 0 - 48
              else 0
            handleMeasurement ctx group (decide crc) .concurrent
          | 68 =>
            if 3 ≤ cmdlen then
              if c.getD 2 0 = 66 then
                handleSendBinaryData ctx (parsePageFrom c 3)
              else
                handleSendData ctx (min (parsePageFrom c 2) 255)
            else (.invalidCommand, ctx, [])
          | 82 =>
            let crc := 2 < cmdlen ∧ c.getD 2 0 = 67
            let dp := if crc then 3 else 2
            let index := if dp < cmdlen ∧ 48 ≤ c.getD dp 0 ∧ c.getD dp 0 ≤ 57 then
                c.getD dp 0 - 48
              else 0
            handleContinuous ctx index (decide crc)
          | 86 => handleMeasurement ctx 0 false .verification
          | 65 =>
            if 3 ≤ cmdlen ∧ isPrintByte (c.getD 2 0) then
              handleChangeAddress ctx (c.getD 2 0)
            else (.invalidAddress, ctx, [])
          | 72 =>
            if cmdlen = 2 then handleHighvolStub ctx
            else if 3 ≤ cmdlen then
              if c.getD 2 0 = 65 then
                handleMeasurement ctx 0 (decide (3 < cmdlen ∧ c.getD 3 0 = 67)) .highvolAscii
              else if c.getD 2 0 = 66 then
                handleMeasurement ctx 0 (decide (3 < cmdlen ∧ c.getD 3 0 = 67)) .highvolBinary
              else handleHighvolStub ctx
            else handleHighvolStub ctx
          | 88 => handleExtended ctx c
          | _ => (.invalidCommand, ctx, [])

/-- sdi12_sensor_process from sdi12_sensor.c: NULL/empty checks,
resp_len reset, `!` stripping, addressing (universal silence), the
concurrent-measurement abort, then the per-command dispatch. -/
def process (ctx0 : SensorCtx) (cmd : List Nat) : SdiErr × SensorCtx × List (List Nat) :=
  if cmd.length = 0 then (.invalidCommand, ctx0, [])
  else
    let ctx := { ctx0 with respLen := 0 }
    let cmdlen := if cmd.getD (cmd.length - 1) 0 = 33 then cmd.length - 1 else cmd.length
    if cmdlen = 0 then (.invalidCommand, ctx, [])
    else
      let addr := cmd.getD 0 0
      let isQuery := cmdlen = 1 ∧ addr = 63
      let isAddressed := addr = ctx.address
      if ¬ isAddressed ∧ ¬ isQuery then (.notAddressed, ctx, [])
      else
        let ctx := if isAddressed ∧ ctx.state = .measuringC then
            { ctx with state := .ready, dataAvailable := false, dataCache := [] }
          else ctx
        processDispatch ctx (cmd.take cmdlen)

/-- sdi12_sensor_measurement_done from sdi12_sensor.c.  The C `count`
argument is the length of the supplied value array.  When the
service_request hook is installed, the service request goes through it
(no bytes through send_response). -/
def measurementDone (ctx0 : SensorCtx) (values : List Value) :
    SdiErr × SensorCtx × List (List Nat) :=
  let n := min values.length MAX_PARAMS
  let ctx := { ctx0 with dataCache := values.take n, dataAvailable := true, respLen := 0 }
  if ctx.state = .measuring then
    let out := if ctx.cb.hasServiceRequest then [] else emit ctx [ctx.address, CR, LF]
    (.ok, { ctx with state := .dataReady }, out)
  else if ctx.state = .measuringC then
    (.ok, { ctx with state := .dataReady }, [])
  else
    (.ok, ctx, [])

/-- sdi12_sensor_break from sdi12_sensor.c. -/
def sensorBreak (ctx : SensorCtx) : SensorCtx :=
  let ctx := if ctx.state = .measuring ∨ ctx.state = .measuringC then
      { ctx with dataAvailable := false, dataCache := [] }
    else ctx
  { ctx with state := .ready }

/-- sdi12_sensor_register_param from sdi12_sensor.c.  strncpy truncates
shef to 3 and units to 20 bytes (field widths minus the terminator). -/
def registerParam (ctx : SensorCtx) (shef units : List Nat) (group decimals : Nat) :
    SdiErr × SensorCtx :=
  if MAX_PARAMS ≤ ctx.params.length then (.paramLimit, ctx)
  else if MAX_MEAS_GROUPS ≤ group then (.invalidCommand, ctx)
  else
    (.ok, { ctx with params := ctx.params ++
      [{ shef := shef.take 3, units := units.take 20, group := group,
         decimals := decimals, active := true }] })

/-- sdi12_sensor_register_xcmd from sdi12_sensor.c. -/
def registerXcmd (ctx : SensorCtx) (pfx : List Nat)
    (handler : List Nat → List Nat → SdiErr × List Nat) : SdiErr × SensorCtx :=
  if MAX_XCMDS ≤ ctx.xcmds.length then (.paramLimit, ctx)
  else
    (.ok, { ctx with xcmds := ctx.xcmds ++
      [{ pfx := pfx.take 15, handler := handler, active := true }] })

/-- sdi12_sensor_init from sdi12_sensor.c. -/
def sensorInit (address : Nat) (ident : Ident) (cb : Callbacks) :
    SdiErr × Option SensorCtx :=
  if ¬ (cb.hasSendResponse ∧ cb.hasSetDirection ∧ cb.hasReadParam) then
    (.callbackMissing, none)
  else if ¬ validAddress address then (.invalidAddress, none)
  else
    let a := match cb.loadAddress with
      | some loaded => if validAddress loaded then loaded else address
      | none => address
    (.ok, some {
      address := a, ident := ident, cb := cb, state := .ready,
      params := [], xcmds := [], pendingMeasType := .standard,
      pendingMeasGroup := 0, crcRequested := false,
      dataCache := [], dataAvailable := false, respLen := 0 })

/-! ## Master engine (sdi12_master.c) -/

/-- trim_crlf from sdi12_master.c: drop trailing CR/LF bytes. -/
def trimCrlf : List Nat → List Nat
  | [] => []
  | b :: bs =>
    let r := trimCrlf bs
    if r = [] ∧ (b = CR ∨ b = LF) then [] else b :: r

/-- sdi12_master_acknowledge from sdi12_master.c, as a function of the
bytes the recv callback yields for the transaction (`[]` = timeout).
Returns the error code and, when meaningful, the `*present` flag.
The `a!` command is 2 bytes, so send_command's SDI12_CMD_MAX_CHARS
check always passes. -/
def masterAcknowledge (addr : Nat) (reply : List Nat) : SdiErr × Option Bool :=
  if ¬ validAddress addr then (.invalidAddress, none)
  else if CMD_MAX_CHARS < 2 then (.invalidCommand, none)
  else if reply.length = 0 then (.ok, some false)
  else
    let t := trimCrlf reply
    (.ok, some (decide (1 ≤ t.length ∧ t.getD 0 0 = addr)))

/-- sdi12_master_parse_meas_response from sdi12_master.c.  `none`
models SDI12_ERR_INVALID_COMMAND; otherwise
`(address, wait_seconds, value_count)`. -/
def masterParseMeasResponse (s : List Nat) (t : MeasType) :
    Option (Nat × Nat × Nat) :=
  if s.length < 5 then none
  else
    let address := s.getD 0 0
    let p1 := parseDigits (s.drop 1) 3
    if p1.2 ≠ 3 then none
    else
      let w : Nat := match t with
        | .standard | .verification => 1
        | .concurrent | .continuous => 2
        | .highvolAscii | .highvolBinary => 3
      let p2 := parseDigits (s.drop 4) w
      if p2.2 ≠ w then none
      else some (address, p1.1, p2.1)

/-- One parsed entry of sdi12_master_parse_data_values.  The C code
stores `strtod(vbuf)` as a float; the model records the token bytes the
float was parsed from (`vbuf`) together with the decimals count, which
is all the theorems below use. -/
structure ParsedValue where
  token : List Nat
  decimals : Nat
  deriving DecidableEq, Repr

/-- skip-spaces inner loop: first index ≥ pos (within dataLen) holding
a non-space byte. -/
def skipSpaces (s : List Nat) (dataLen pos : Nat) : Nat :=
  pos + (((s.take dataLen).drop pos).takeWhile (fun b => b == 32)).length

/-- digits-and-dots inner loop: position after the last consumed byte. -/
def numTokenEnd (s : List Nat) (dataLen pos : Nat) : Nat :=
  pos + (((s.take dataLen).drop pos).takeWhile (fun b => isDigitByte b || b == 46)).length

/-- The while loop of sdi12_master_parse_data_values.  `fuel` bounds the
iteration count; the position strictly increases every iteration, so
`dataLen + 1` units never run out. -/
def pdLoop (s : List Nat) (dataLen maxValues : Nat) :
    Nat → Nat → List ParsedValue → List ParsedValue
  | 0, _, acc => acc
  | fuel + 1, pos0, acc =>
    if pos0 < dataLen ∧ acc.length < maxValues then
      let pos := skipSpaces s dataLen pos0
      if dataLen ≤ pos then acc
      else if s.getD pos 0 ≠ 43 ∧ s.getD pos 0 ≠ 45 then
        pdLoop s dataLen maxValues fuel (pos + 1) acc
      else
        let start := pos
        let stop := numTokenEnd s dataLen (pos + 1)
        if start + 1 < stop then
          let vlen := min (stop - start) VALUE_MAX_CHARS
          let token := (s.drop start).take vlen
          let di := token.indexOf 46
          let decs := if di < vlen then vlen - di - 1 else 0
          pdLoop s dataLen maxValues fuel stop (acc ++ [⟨token, decs⟩])
        else
          pdLoop s dataLen maxValues fuel stop acc
    else acc

/-- sdi12_master_parse_data_values from sdi12_master.c (the callers pass
`len = ` the length of the byte string, here `s.length`). -/
def parseDataValues (s : List Nat) (maxValues : Nat) (verifyCrc : Bool) :
    List ParsedValue :=
  let dataLen := if verifyCrc ∧ 3 ≤ s.length then s.length - 3 else s.length
  pdLoop s dataLen maxValues (dataLen + 1) 0 []

/-- A parsed-value entry is well-formed when its token is a sign byte
followed by at least one digit-or-dot character. -/
def entryOk (e : ParsedValue) : Prop :=
  2 ≤ e.token.length ∧ (e.token.getD 0 0 = 43 ∨ e.token.getD 0 0 = 45) ∧
  (isDigitByte (e.token.getD 1 0) = true ∨ e.token.getD 1 0 = 46)

/-! ## Concrete fixtures

A minimal sensor configuration (address `'0'`, required callbacks
installed, no optional hooks) used to evaluate the embedded code at
concrete inputs. -/

/-- Callback set with the three required callbacks and no optional hooks. -/
def testCb : Callbacks :=
  { hasSendResponse := true, hasSetDirection := true, hasReadParam := true,
    readParam := fun _ => { value := 42, decimals := 0 },
    startMeasurement := none, hasServiceRequest := false,
    formatBinaryPage := none, hasSaveAddress := false, loadAddress := none }

/-- A small identification record. -/
def testIdent : Ident :=
  { vendor := [84], model := [77], firmwareVersion := [49], serial := [83] }

/-- Freshly initialised sensor context at address `'0'` (byte 48). -/
def testCtx : SensorCtx :=
  { address := 48, ident := testIdent, cb := testCb, params := [], xcmds := [],
    state := .ready, pendingMeasType := .standard, pendingMeasGroup := 0,
    crcRequested := false, dataCache := [], dataAvailable := false, respLen := 0 }

/-- A single cached measurement value. -/
def vOne : Value := { value := 1, decimals := 2 }

/-- Context holding a pending high-volume binary measurement with data
ready but no binary formatter hook installed. -/
def ctxHB : SensorCtx :=
  { testCtx with pendingMeasType := .highvolBinary, dataAvailable := true,
                 dataCache := [vOne] }

/-- Context in the middle of a concurrent measurement. -/
def ctxMC : SensorCtx :=
  { testCtx with state := .measuringC, dataAvailable := true, dataCache := [vOne] }

/-- The invariant of spec §3: `data_cache_len ≤ param_table_len ≤ MAX_PARAMS`. -/
def cacheInv (ctx : SensorCtx) : Prop :=
  ctx.dataCache.length ≤ ctx.params.length ∧ ctx.params.length ≤ MAX_PARAMS

/-! ## Theorems -/

theorem crcDataEnd_le (x : List Nat) : crcDataEnd x ≤ x.length := by
  simp only [crcDataEnd]
  split <;> omega

theorem verify_append_shape (t : List Nat) (h : 1 ≤ t.length) :
    sdi12_crc_verify (t ++ crcEncodeAscii (sdi12_crc16 t) ++ [CR, LF])
      (t ++ crcEncodeAscii (sdi12_crc16 t) ++ [CR, LF]).length = true := by
  set c := sdi12_crc16 t with hc
  set e0 : Nat := 0x40 ||| (c >>> 12) with he0
  set e1 : Nat := 0x40 ||| ((c >>> 6) &&& 0x3F) with he1
  set e2 : Nat := 0x40 ||| (c &&& 0x3F) with he2
  have he : crcEncodeAscii c = [e0, e1, e2] := rfl
  rw [he]
  set n := t.length with hn
  have hy : t ++ [e0, e1, e2] ++ [CR, LF] = t ++ [e0, e1, e2, CR, LF] := by simp
  rw [hy]
  have hlen : (t ++ [e0, e1, e2, CR, LF]).length = n + 5 := by
    simp [List.length_append]
  have hget : ∀ k m, k < 5 → m = n + k →
      (t ++ [e0, e1, e2, CR, LF]).getD m 0 = [e0, e1, e2, CR, LF].getD k 0 := by
    intro k m _ hm
    subst hm
    rw [List.getD_append_right _ _ _ _ (by omega)]
    congr 1
    omega
  have htake : ∀ m, m = n → (t ++ [e0, e1, e2, CR, LF]).take m = t := by
    intro m hm
    subst hm
    exact List.take_left _ _
  unfold sdi12_crc_verify
  rw [hlen]
  dsimp only
  split
  · omega
  · split
    · split
      · split
        · omega
        · rw [htake _ (by omega), ← hc, he]
          rw [hget 0 _ (by omega) (by omega), hget 1 _ (by omega) (by omega),
              hget 2 _ (by omega) (by omega)]
          simp
      · rename_i hcon
        exact absurd ⟨by omega, hget 3 _ (by omega) (by omega)⟩ hcon
    · rename_i hcon
      exact absurd (hget 4 _ (by omega) (by omega)) hcon

/-- C6 counterexample: the claim includes the empty string, but
appending the CRC to the empty string yields the 5-byte `@@@ CR LF`,
which sdi12_crc_verify rejects (minimum length 6). -/
theorem C6_counterexample :
    sdi12_crc_append [] 82 = some [64, 64, 64, CR, LF] ∧
    sdi12_crc_verify [64, 64, 64, CR, LF] 5 = false := by
  constructor <;> rfl

/-- C6 (amended): for every data string whose content before the
optional trailing CR LF is non-empty (the empty string is excluded),
appending the CRC with sdi12_crc_append and then checking the result
with sdi12_crc_verify over the resulting length returns true. -/
theorem C6_claim (x : List Nat) (buflen : Nat) (y : List Nat)
    (hne : 1 ≤ crcDataEnd x)
    (happ : sdi12_crc_append x buflen = some y) :
    sdi12_crc_verify y y.length = true := by
  simp only [sdi12_crc_append] at happ
  split at happ
  · exact absurd happ (by simp)
  · have hy : y = x.take (crcDataEnd x) ++
        crcEncodeAscii (sdi12_crc16 (x.take (crcDataEnd x))) ++ [CR, LF] :=
      (Option.some.inj happ).symm
    have hlen : 1 ≤ (x.take (crcDataEnd x)).length := by
      rw [List.length_take]
      have := crcDataEnd_le x
      omega
    rw [hy]
    exact verify_append_shape _ hlen

set_option maxRecDepth 8000 in
/-- C6 witness: the round trip at the concrete data string `0+1.23`. -/
theorem C6_claim_witness :
    sdi12_crc_verify [48, 43, 49, 46, 50, 51, 71, 88, 90, CR, LF]
      [48, 43, 49, 46, 50, 51, 71, 88, 90, CR, LF].length = true :=
  C6_claim [48, 43, 49, 46, 50, 51] 82 _ (by decide) (by decide)

/-- C1 counterexample: the one-byte buffer `"!"` has a first byte (0x21)
that is neither the sensor address `'0'` nor `'?'`, yet
sdi12_sensor_process returns InvalidCommand, not NotAddressed. -/
theorem C1_counterexample :
    (33 ≠ testCtx.address ∧ 33 ≠ 63) ∧
    (process testCtx [33]).1 = SdiErr.invalidCommand ∧
    SdiErr.invalidCommand ≠ SdiErr.notAddressed := by
  refine ⟨by decide, ?_, by decide⟩
  rfl

/-- C2 counterexample: from DataReady with data_available set,
sdi12_sensor_break moves to Ready but does NOT clear data_available
(the clearing is guarded by the Measuring/MeasuringConcurrent states). -/
theorem C2_counterexample :
    (sensorBreak { testCtx with state := .dataReady, dataAvailable := true }).state =
      SdiState.ready ∧
    (sensorBreak { testCtx with state := .dataReady, dataAvailable := true }).dataAvailable =
      true := by
  constructor <;> rfl

/-- C3 counterexample: with pending type HighVolBinary and no
format_binary_page hook, `0DB0!` is answered with the 6-byte empty
binary packet (CRC-terminated, no CR LF) — not with ASCII SendData
framing, which `0D0!` produces ending in CR LF. -/
theorem C3_counterexample :
    (process ctxHB [48, 68, 66, 48, 33]).2.2 = [emptyBinaryPacket 48] ∧
    emptyBinaryPacket 48 = [48, 0, 0, 0, 15, 0] ∧
    (emptyBinaryPacket 48).getLast? ≠ some LF ∧
    ((process ctxHB [48, 68, 48, 33]).2.2.headD []).getLast? = some LF := by
  refine ⟨rfl, by decide, by decide, ?_⟩
  have hout : (process ctxHB [48, 68, 48, 33]).2.2 =
      [[48, 43, 49, 46, 48, 48, CR, LF]] := rfl
  rw [hout]
  rfl

/-- C4 counterexample: calling sdi12_sensor_measurement_done in the
Ready state is not ignored — the data cache, its count and the
data_available flag are all updated. -/
theorem C4_counterexample :
    testCtx.state = SdiState.ready ∧
    testCtx.dataAvailable = false ∧
    (measurementDone testCtx [vOne]).2.1.dataAvailable = true ∧
    (measurementDone testCtx [vOne]).2.1.dataCache = [vOne] := by
  exact ⟨rfl, rfl, rfl, rfl⟩

/-- C5 counterexample: measurement_done clamps the stored count only to
SDI12_MAX_PARAMS, not to param_count, so delivering one value to a
sensor with zero registered parameters breaks
`data_cache_count ≤ param_count`. -/
theorem C5_counterexample :
    cacheInv testCtx ∧ ¬ cacheInv (measurementDone testCtx [vOne]).2.1 := by
  constructor
  · exact ⟨by decide, by decide⟩
  · intro h
    have h1 : (measurementDone testCtx [vOne]).2.1.dataCache.length = 1 := rfl
    have h2 : (measurementDone testCtx [vOne]).2.1.params.length = 0 := rfl
    have := h.1
    omega

/-- C7: evaluating the code at the failing input.  A sensor at `'0'`
with zero group-0 parameters answers `0HA!` with `"0" ++ "000" ++ "00"
++ CR LF` — a 2-digit count field, 8 bytes in total — while the claim
(and the HighVol header format, which the library's own master parser
enforces) requires a 3-digit count.  The library's own
sdi12_master_parse_meas_response rejects the emitted header under
HighVolAscii but accepts the 3-digit-count variant. -/
theorem C7_code_bug :
    (process testCtx [48, 72, 65, 33]).2.2 = [[48, 48, 48, 48, 48, 48, CR, LF]] ∧
    (process testCtx [48, 72, 65, 67, 33]).2.2 = [[48, 48, 48, 48, 48, 48, CR, LF]] ∧
    [48, 48, 48, 48, 48, 48, CR, LF] ≠ ([48] ++ [48, 48, 48] ++ [48, 48, 48] ++ [CR, LF]) ∧
    masterParseMeasResponse (trimCrlf [48, 48, 48, 48, 48, 48, CR, LF]) .highvolAscii =
      none ∧
    masterParseMeasResponse [48, 48, 48, 48, 48, 48, 48] .highvolAscii =
      some (48, 0, 0) := by
  exact ⟨rfl, rfl, by decide, by decide, by decide⟩

/-- C9 counterexample: the token `"+."` (a sign followed by no digit)
does contribute an entry to the output array — the recording guard
accepts any digit-or-dot character after the sign. -/
theorem C9_counterexample :
    parseDataValues [43, 46] 99 false = [{ token := [43, 46], decimals := 0 }] ∧
    parseDataValues [43] 99 false = [] := by
  constructor <;> rfl

/-- C1 (amended): for every non-empty command buffer other than the
single byte `"!"` whose first byte is neither the sensor's current
address nor `'?'`, sdi12_sensor_process returns NotAddressed, never
invokes send_response, and leaves every context field except resp_len
(state, address, data cache, data_available, parameter and
extended-command registrations) unchanged. -/
theorem C1_claim (ctx : SensorCtx) (cmd : List Nat)
    (h0 : cmd ≠ []) (h1 : cmd ≠ [33])
    (h2 : cmd.getD 0 0 ≠ ctx.address) (h3 : cmd.getD 0 0 ≠ 63) :
    process ctx cmd = (.notAddressed, { ctx with respLen := 0 }, []) := by
  have hlen : ¬ cmd.length = 0 := by
    intro h
    exact h0 (List.length_eq_zero.mp h)
  by_cases hlast : cmd.getD (cmd.length - 1) 0 = 33
  · have hne1 : ¬ (cmd.length - 1 = 0) := by
      intro hz
      have hl1 : cmd.length = 1 := by omega
      obtain ⟨b, hb⟩ := List.length_eq_one.mp hl1
      apply h1
      rw [hb]
      rw [hb] at hlast
      simp only [List.length_cons, List.length_nil, Nat.sub_self] at hlast
      have hb33 : b = 33 := by simpa using hlast
      rw [hb33]
    simp only [process, hlast, eq_self_iff_true, if_true]
    rw [if_neg hlen, if_neg hne1]
    rw [if_pos (show ¬ (cmd.getD 0 0 = ({ ctx with respLen := 0 } : SensorCtx).address) ∧
        ¬ (cmd.length - 1 = 1 ∧ cmd.getD 0 0 = 63) from ⟨h2, fun hq => h3 hq.2⟩)]
  · simp only [process, hlast, if_false]
    rw [if_neg hlen, if_neg hlen]
    rw [if_pos (show ¬ (cmd.getD 0 0 = ({ ctx with respLen := 0 } : SensorCtx).address) ∧
        ¬ (cmd.length = 1 ∧ cmd.getD 0 0 = 63) from ⟨h2, fun hq => h3 hq.2⟩)]

/-- C1 witness: the counter-party command `1!` at the fixture sensor
(address `'0'`). -/
theorem C1_claim_witness :
    process testCtx [49, 33] = (.notAddressed, { testCtx with respLen := 0 }, []) :=
  C1_claim testCtx [49, 33] (by decide) (by decide) (by decide) (by decide)

/-- C2 (amended): from every state among Ready, Measuring,
MeasuringConcurrent and DataReady, sdi12_sensor_break transitions to
Ready and leaves the address, parameter table and extended-command
table unchanged; it clears data_available (and the cache) exactly when
the state was Measuring or MeasuringConcurrent, and leaves
data_available and the cache unchanged from Ready and DataReady. -/
theorem C2_claim (ctx : SensorCtx)
    (hst : ctx.state = .ready ∨ ctx.state = .measuring ∨
         ctx.state = .measuringC ∨ ctx.state = .dataReady) :
    (sensorBreak ctx).state = .ready ∧
    (sensorBreak ctx).address = ctx.address ∧
    (sensorBreak ctx).params = ctx.params ∧
    (sensorBreak ctx).xcmds = ctx.xcmds ∧
    ((ctx.state = .measuring ∨ ctx.state = .measuringC) →
      (sensorBreak ctx).dataAvailable = false ∧ (sensorBreak ctx).dataCache = []) ∧
    ((ctx.state = .ready ∨ ctx.state = .dataReady) →
      (sensorBreak ctx).dataAvailable = ctx.dataAvailable ∧
      (sensorBreak ctx).dataCache = ctx.dataCache) := by
  clear hst
  unfold sensorBreak
  split
  · rename_i hm
    refine ⟨rfl, rfl, rfl, rfl, fun _ => ⟨rfl, rfl⟩, fun hr => ?_⟩
    rcases hm with hm | hm <;> rcases hr with hr | hr <;> rw [hm] at hr <;> cases hr
  · rename_i hm
    exact ⟨rfl, rfl, rfl, rfl, fun hc => absurd hc hm, fun _ => ⟨rfl, rfl⟩⟩

/-- C2 witness: break from DataReady at the fixture sensor. -/
theorem C2_claim_witness :
    (sensorBreak { testCtx with state := .dataReady, dataAvailable := true }).state =
      SdiState.ready ∧
    (sensorBreak { testCtx with state := .dataReady, dataAvailable := true }).dataAvailable =
      ({ testCtx with state := SdiState.dataReady, dataAvailable := true } :
        SensorCtx).dataAvailable :=
  ⟨(C2_claim _ (Or.inr (Or.inr (Or.inr rfl)))).1,
   ((C2_claim { testCtx with state := .dataReady, dataAvailable := true }
      (Or.inr (Or.inr (Or.inr rfl)))).2.2.2.2.2 (Or.inr rfl)).1⟩

/-- C4 (amended): when the state is neither Measuring nor
MeasuringConcurrent, sdi12_sensor_measurement_done leaves the state
unchanged and emits no bytes, but it is not fully ignored: the data
cache is overwritten with the delivered values (count clamped to
SDI12_MAX_PARAMS), data_available is set, and resp_len is reset. -/
theorem C4_claim (ctx : SensorCtx) (values : List Value)
    (h1 : ctx.state ≠ .measuring) (h2 : ctx.state ≠ .measuringC) :
    measurementDone ctx values =
      (.ok, { ctx with dataCache := values.take (min values.length MAX_PARAMS),
                       dataAvailable := true, respLen := 0 }, []) := by
  unfold measurementDone
  rw [if_neg (by simpa using h1), if_neg (by simpa using h2)]

/-- C4 witness: measurement_done in the Ready state at the fixture
sensor. -/
theorem C4_claim_witness :
    measurementDone testCtx [vOne] =
      (.ok, { testCtx with dataCache := [vOne].take (min [vOne].length MAX_PARAMS),
                           dataAvailable := true, respLen := 0 }, []) :=
  C4_claim testCtx [vOne] (by decide) (by decide)

/-- C3 (amended): when the pending measurement type is HighVolBinary
and the format_binary_page hook is absent, `aDn!` degrades to the ASCII
SendData formatter (with the Standard 35-character page budget, since
HighVolBinary is not in the 75-character set), while `aDBn!` is
answered with the 6-byte empty binary packet, not with ASCII framing. -/
theorem C3_claim (ctx : SensorCtx) (page : Nat)
    (h1 : ctx.pendingMeasType = .highvolBinary)
    (h2 : ctx.cb.formatBinaryPage = none)
    (h3 : ctx.dataAvailable = true) :
    handleSendData ctx page =
      (.ok, ctx, emit ctx (formatDataPage ctx page M_VALUES_MAX_CHARS)) ∧
    handleSendBinaryData ctx page =
      (.ok, { ctx with respLen := 6 }, emit ctx (emptyBinaryPacket ctx.address)) := by
  constructor
  · unfold handleSendData
    rw [if_neg (by simp [h3])]
    rw [h2]
    have hmax : (if ctx.pendingMeasType = .concurrent ∨ ctx.pendingMeasType = .continuous ∨
        ctx.pendingMeasType = .highvolAscii then C_VALUES_MAX_CHARS
      else M_VALUES_MAX_CHARS) = M_VALUES_MAX_CHARS := by
      rw [if_neg]
      rw [h1]
      rintro (h | h | h) <;> cases h
    rw [hmax]
  · unfold handleSendBinaryData
    rw [if_pos (by simp [h2])]

/-- C3 witness: the fixture context with a cached value, pending
HighVolBinary and no hook, at page 0. -/
theorem C3_claim_witness :
    handleSendData ctxHB 0 =
      (.ok, ctxHB, emit ctxHB (formatDataPage ctxHB 0 M_VALUES_MAX_CHARS)) ∧
    handleSendBinaryData ctxHB 0 =
      (.ok, { ctxHB with respLen := 6 }, emit ctxHB (emptyBinaryPacket ctxHB.address)) :=
  C3_claim ctxHB 0 rfl rfl rfl

theorem trimCrlf_cons_eq (b : Nat) (bs : List Nat) :
    trimCrlf (b :: bs) =
      if trimCrlf bs = [] ∧ (b = CR ∨ b = LF) then [] else b :: trimCrlf bs := rfl

theorem trimCrlf_cons_cases (b : Nat) (bs : List Nat) :
    trimCrlf (b :: bs) = [] ∨ trimCrlf (b :: bs) = b :: trimCrlf bs := by
  rw [trimCrlf_cons_eq]
  split
  · exact Or.inl rfl
  · exact Or.inr rfl

theorem trimCrlf_cons_of_head (b : Nat) (bs : List Nat) (hb : ¬ (b = CR ∨ b = LF)) :
    trimCrlf (b :: bs) = b :: trimCrlf bs := by
  rw [trimCrlf_cons_eq, if_neg (fun hc => hb hc.2)]

theorem validAddress_not_crlf (a : Nat) (hv : validAddress a = true) :
    a ≠ CR ∧ a ≠ LF := by
  simp only [validAddress, Bool.or_eq_true, Bool.and_eq_true, decide_eq_true_eq] at hv
  unfold CR LF
  omega

/-- C8: for every valid address, a timed-out acknowledge transaction
(recv yields zero bytes) returns Ok with `present = false`; a received
reply yields Ok with `present` true exactly when the first response
byte equals the queried address.  (The only other transaction result,
the command-length check, can never fire for the 2-byte `a!`.) -/
theorem C8_claim (addr : Nat) (reply : List Nat)
    (hv : validAddress addr = true)
    (hcap : reply.length ≤ MASTER_RESP_BUF - 1) :
    (reply = [] → masterAcknowledge addr reply = (.ok, some false)) ∧
    (reply ≠ [] → masterAcknowledge addr reply =
      (.ok, some (decide (reply.getD 0 0 = addr)))) := by
  clear hcap
  constructor
  · intro he
    subst he
    unfold masterAcknowledge
    rw [if_neg (by simp [hv]), if_neg (by norm_num [CMD_MAX_CHARS])]
    rfl
  · intro hne
    obtain ⟨b, bs, rfl⟩ := List.exists_cons_of_ne_nil hne
    have hnc := validAddress_not_crlf addr hv
    have hiff : (1 ≤ (trimCrlf (b :: bs)).length ∧ (trimCrlf (b :: bs)).getD 0 0 = addr) ↔
        ((b :: bs).getD 0 0 = addr) := by
      rcases trimCrlf_cons_cases b bs with h | h
      · rw [h]
        simp only [List.length_nil, List.getD]
        constructor
        · rintro ⟨h1, _⟩
          omega
        · intro hba
          exfalso
          by_cases hb : b = CR ∨ b = LF
          · simp only [List.get?, Option.getD_some] at hba
            rcases hb with hb | hb <;> rw [hb] at hba <;>
              [exact hnc.1 hba.symm; exact hnc.2 hba.symm]
          · rw [trimCrlf_cons_of_head b bs hb] at h
            cases h
      · rw [h]
        simp [List.getD]
    unfold masterAcknowledge
    rw [if_neg (by simp [hv]), if_neg (by norm_num [CMD_MAX_CHARS]),
        if_neg (by simp)]
    dsimp only
    rw [decide_eq_decide.mpr hiff]

/-- C8 witness: address `'0'` with a timeout, with the matching reply
`0 CR LF`, and with a foreign reply `1 CR LF`. -/
theorem C8_claim_witness :
    masterAcknowledge 48 [] = (.ok, some false) ∧
    masterAcknowledge 48 [48, CR, LF] = (.ok, some true) ∧
    masterAcknowledge 48 [49, CR, LF] = (.ok, some false) := by
  refine ⟨(C8_claim 48 [] (by decide) (by decide)).1 rfl, ?_, ?_⟩
  · have h := (C8_claim 48 [48, CR, LF] (by decide) (by decide)).2 (by decide)
    rw [h]
    rfl
  · have h := (C8_claim 48 [49, CR, LF] (by decide) (by decide)).2 (by decide)
    rw [h]
    rfl

theorem sliceGetD (s : List Nat) (start vlen k : Nat) (hk : k < vlen) :
    ((s.drop start).take vlen).getD k 0 = s.getD (start + k) 0 := by
  show (((s.drop start).take vlen).get? k).getD 0 = (s.get? (start + k)).getD 0
  rw [List.get?_take hk, List.get?_drop]

theorem token_ok (s : List Nat) (dataLen pos d : Nat) (hdl : dataLen ≤ s.length)
    (hsig : s.getD pos 0 = 43 ∨ s.getD pos 0 = 45)
    (h4 : pos + 1 < numTokenEnd s dataLen (pos + 1)) :
    entryOk ⟨(s.drop pos).take (min (numTokenEnd s dataLen (pos + 1) - pos) VALUE_MAX_CHARS),
             d⟩ := by
  have hk1 : 1 ≤ (((s.take dataLen).drop (pos + 1)).takeWhile
      (fun b => isDigitByte b || b == 46)).length := by
    unfold numTokenEnd at h4
    omega
  have hkL : (((s.take dataLen).drop (pos + 1)).takeWhile
      (fun b => isDigitByte b || b == 46)).length ≤
      ((s.take dataLen).drop (pos + 1)).length :=
    (List.takeWhile_sublist _).length_le
  have hLlen : ((s.take dataLen).drop (pos + 1)).length = dataLen - (pos + 1) := by
    rw [List.length_drop, List.length_take]
    omega
  have hpos2 : pos + 2 ≤ dataLen := by omega
  have hvlen : 2 ≤ min (numTokenEnd s dataLen (pos + 1) - pos) VALUE_MAX_CHARS := by
    unfold numTokenEnd at h4 ⊢
    unfold VALUE_MAX_CHARS
    omega
  set vlen := min (numTokenEnd s dataLen (pos + 1) - pos) VALUE_MAX_CHARS with hvdef
  refine ⟨?_, ?_, ?_⟩
  · show 2 ≤ ((s.drop pos).take vlen).length
    rw [List.length_take, List.length_drop]
    omega
  · show ((s.drop pos).take vlen).getD 0 0 = 43 ∨ ((s.drop pos).take vlen).getD 0 0 = 45
    rw [sliceGetD s pos vlen 0 (by omega)]
    simpa using hsig
  · show isDigitByte (((s.drop pos).take vlen).getD 1 0) = true ∨
        ((s.drop pos).take vlen).getD 1 0 = 46
    rw [sliceGetD s pos vlen 1 (by omega)]
    cases hL : (s.take dataLen).drop (pos + 1) with
    | nil =>
      rw [hL] at hLlen
      simp at hLlen
      omega
    | cons x xs =>
      have hpx : (isDigitByte x || x == 46) = true := by
        by_contra hpx
        rw [hL, List.takeWhile_cons] at hk1
        rw [if_neg (by simpa using hpx)] at hk1
        simp at hk1
      have hx : s.getD (pos + 1) 0 = x := by
        show (s.get? (pos + 1)).getD 0 = x
        have : (s.take dataLen).get? (pos + 1) = s.get? (pos + 1) :=
          List.get?_take (by omega)
        rw [← this]
        have h0 : ((s.take dataLen).drop (pos + 1)).get? 0 = (s.take dataLen).get? (pos + 1) := by
          rw [List.get?_drop]
        rw [← h0, hL]
        rfl
      rw [hx]
      rcases (Bool.or_eq_true _ _).mp hpx with h | h
      · exact Or.inl h
      · exact Or.inr (by simpa using h)

theorem pdLoop_entries (s : List Nat) (dataLen maxV : Nat) (hdl : dataLen ≤ s.length) :
    ∀ fuel pos0 acc, (∀ e ∈ acc, entryOk e) →
      ∀ e ∈ pdLoop s dataLen maxV fuel pos0 acc, entryOk e := by
  intro fuel
  induction fuel with
  | zero =>
    intro pos0 acc hacc e he
    exact hacc e he
  | succ fuel ih =>
    intro pos0 acc hacc e he
    simp only [pdLoop] at he
    by_cases h1 : pos0 < dataLen ∧ acc.length < maxV
    · rw [if_pos h1] at he
      set pos := skipSpaces s dataLen pos0 with hposdef
      by_cases h2 : dataLen ≤ pos
      · rw [if_pos h2] at he
        exact hacc e he
      · rw [if_neg h2] at he
        by_cases h3 : s.getD pos 0 ≠ 43 ∧ s.getD pos 0 ≠ 45
        · rw [if_pos h3] at he
          exact ih _ _ hacc e he
        · rw [if_neg h3] at he
          by_cases h4 : pos + 1 < numTokenEnd s dataLen (pos + 1)
          · rw [if_pos h4] at he
            refine ih _ _ ?_ e he
            intro e2 he2
            rcases List.mem_append.mp he2 with hm | hm
            · exact hacc e2 hm
            · have hsig : s.getD pos 0 = 43 ∨ s.getD pos 0 = 45 := by
                by_cases hp : s.getD pos 0 = 43
                · exact Or.inl hp
                · by_cases hq : s.getD pos 0 = 45
                  · exact Or.inr hq
                  · exact absurd ⟨hp, hq⟩ h3
              have he3 := List.mem_singleton.mp hm
              rw [he3]
              exact token_ok s dataLen pos _ hdl hsig h4
          · rw [if_neg h4] at he
            exact ih _ _ hacc e he
    · rw [if_neg h1] at he
      exact hacc e he

/-- C9 (amended): in sdi12_master_parse_data_values a bare sign with no
following character contributes no entry, but the recording guard
accepts any digit-or-dot after the sign: every recorded value
originates from a token of length at least 2 whose first byte is the
sign and whose second byte is a digit or a dot (so a digit-free token
such as `"+."` IS recorded, unlike the claim's reading). -/
theorem C9_claim (s : List Nat) (maxV : Nat) (vc : Bool) :
    ∀ e ∈ parseDataValues s maxV vc, entryOk e := by
  unfold parseDataValues
  intro e he
  refine pdLoop_entries s _ maxV ?_ _ 0 [] (by intro e2 he2; cases he2) e he
  split <;> omega

/-- C9 witness: the single entry parsed from `"+1"` is sign-led with a
digit after the sign. -/
theorem C9_claim_witness :
    entryOk { token := [43, 49], decimals := 0 } :=
  C9_claim [43, 49] 99 false { token := [43, 49], decimals := 0 } (by decide)

/-- C10: processing the wildcard query `?!` while in
MeasuringConcurrent emits the single-address reply `a CR LF` and does
not abort the measurement: the state stays MeasuringConcurrent and
data_available / data_cache_count are untouched (only resp_len is
reset); moreover no command whose first byte differs from the sensor's
own address ever changes the state, data_available or the cache. -/
theorem C10_claim (ctx : SensorCtx)
    (hv : validAddress ctx.address = true)
    (hst : ctx.state = .measuringC) :
    process ctx [63, 33] =
      (.ok, { ctx with respLen := 0 }, emit ctx [ctx.address, CR, LF]) ∧
    ∀ cmd, cmd.getD 0 0 ≠ ctx.address →
      (process ctx cmd).2.1.state = .measuringC ∧
      (process ctx cmd).2.1.dataAvailable = ctx.dataAvailable ∧
      (process ctx cmd).2.1.dataCache = ctx.dataCache := by
  have ha63 : ¬ (63 = ctx.address) := by
    intro h
    rw [← h] at hv
    exact absurd hv (by decide)
  constructor
  · unfold process
    rw [if_neg (by decide)]
    dsimp only
    rw [if_pos (show [63, 33].getD ([63, 33].length - 1) 0 = 33 from by decide)]
    rw [if_neg (show ¬ ([63, 33].length - 1 = 0) from by decide)]
    rw [if_neg (by
      rintro ⟨-, hq⟩
      exact hq ⟨by decide, by decide⟩)]
    rw [if_neg (fun hc => ha63 hc.1)]
    unfold processDispatch
    rw [if_pos (by decide)]
    rfl
  · intro cmd hne
    by_cases h0 : cmd.length = 0
    · unfold process
      rw [if_pos h0]
      exact ⟨hst, rfl, rfl⟩
    · unfold process
      rw [if_neg h0]
      dsimp only
      by_cases hz : (if cmd.getD (cmd.length - 1) 0 = 33 then cmd.length - 1
          else cmd.length) = 0
      · rw [if_pos hz]
        exact ⟨hst, rfl, rfl⟩
      · rw [if_neg hz]
        by_cases hq : (if cmd.getD (cmd.length - 1) 0 = 33 then cmd.length - 1
            else cmd.length) = 1 ∧ cmd.getD 0 0 = 63
        · rw [if_neg (by
            rintro ⟨-, hq2⟩
            exact hq2 hq)]
          rw [if_neg (fun hc => hne hc.1)]
          have hc1 : (cmd.take (if cmd.getD (cmd.length - 1) 0 = 33 then cmd.length - 1
              else cmd.length)).length = 1 := by
            rw [List.length_take, hq.1]
            omega
          unfold processDispatch
          rw [if_pos hc1]
          exact ⟨hst, rfl, rfl⟩
        · rw [if_pos ⟨fun hc => hne hc, fun hc => hq hc⟩]
          exact ⟨hst, rfl, rfl⟩

/-- C10 witness: the fixture sensor mid concurrent measurement. -/
theorem C10_claim_witness :
    process ctxMC [63, 33] =
      (.ok, { ctxMC with respLen := 0 }, emit ctxMC [ctxMC.address, CR, LF]) ∧
    (process ctxMC [49, 33]).2.1.state = .measuringC :=
  ⟨(C10_claim ctxMC (by decide) rfl).1,
   ((C10_claim ctxMC (by decide) rfl).2 [49, 33] (by decide)).1⟩

theorem collectGroupIndices_length (ctx : SensorCtx) (g m : Nat) :
    (collectGroupIndices ctx g m).length ≤ ctx.params.length ∧
    (collectGroupIndices ctx g m).length ≤ m := by
  unfold collectGroupIndices
  rw [List.length_take]
  constructor
  · have h1 := List.length_filter_le (fun i =>
      match ctx.params.get? i with
      | some p => p.active && p.group == g
      | none => false) (List.range ctx.params.length)
    rw [List.length_range] at h1
    omega
  · omega

theorem readGroupSync_inv (ctx : SensorCtx) (g : Nat) (h : cacheInv ctx) :
    cacheInv (readGroupSync ctx g) := by
  unfold readGroupSync cacheInv
  dsimp only
  refine ⟨?_, h.2⟩
  split
  · rw [List.length_map, List.length_take]
    have := (collectGroupIndices_length ctx g MAX_PARAMS).1
    omega
  · exact Nat.zero_le _

theorem handleMeasurement_inv (ctx : SensorCtx) (g : Nat) (wc : Bool) (t : MeasType)
    (h : cacheInv ctx) : cacheInv (handleMeasurement ctx g wc t).2.1 := by
  unfold handleMeasurement
  dsimp only
  split
  · exact h
  · split
    · dsimp only
      split
      · apply readGroupSync_inv
        split <;> exact h
      · split <;> exact h
    · exact readGroupSync_inv _ _ h

theorem handleContinuous_inv (ctx : SensorCtx) (idx : Nat) (wc : Bool)
    (h : cacheInv ctx) : cacheInv (handleContinuous ctx idx wc).2.1 := by
  unfold handleContinuous
  dsimp only
  split
  · exact h
  · exact readGroupSync_inv _ _ h

theorem handleSendData_inv (ctx : SensorCtx) (page : Nat) (h : cacheInv ctx) :
    cacheInv (handleSendData ctx page).2.1 := by
  unfold handleSendData
  split
  · exact h
  · split
    · split <;> exact h
    · exact h

theorem handleSendBinaryData_inv (ctx : SensorCtx) (page : Nat) (h : cacheInv ctx) :
    cacheInv (handleSendBinaryData ctx page).2.1 := by
  unfold handleSendBinaryData
  split
  · exact h
  · split
    · exact h
    · dsimp only
      split
      · exact h
      · exact h

theorem cacheInv_ite (P : Prop) [Decidable P] (x y : SdiErr × SensorCtx × List (List Nat))
    (hx : cacheInv x.2.1) (hy : cacheInv y.2.1) : cacheInv (if P then x else y).2.1 := by
  split
  · exact hx
  · exact hy

theorem handleIdentifyMeasurement_inv (ctx : SensorCtx) (c : List Nat)
    (h : cacheInv ctx) : cacheInv (handleIdentifyMeasurement ctx c).2.1 := by
  unfold handleIdentifyMeasurement
  dsimp only
  split
  · exact h
  · split
    · exact cacheInv_ite _ _ _ h h
    · exact h

theorem handleExtended_inv (ctx : SensorCtx) (c : List Nat) (h : cacheInv ctx) :
    cacheInv (handleExtended ctx c).2.1 := by
  unfold handleExtended
  dsimp only
  split
  · split
    · exact h
    · exact h
  · exact h

theorem processDispatch_inv (ctx : SensorCtx) (c : List Nat) (h : cacheInv ctx) :
    cacheInv (processDispatch ctx c).2.1 := by
  unfold processDispatch
  dsimp only
  split
  · exact h
  · split
    · split
      · exact h
      · exact handleIdentifyMeasurement_inv _ _ h
    · exact handleMeasurement_inv _ _ _ _ h
    · exact handleMeasurement_inv _ _ _ _ h
    · split
      · split
        · exact handleSendBinaryData_inv _ _ h
        · exact handleSendData_inv _ _ h
      · exact h
    · exact handleContinuous_inv _ _ _ h
    · exact handleMeasurement_inv _ _ _ _ h
    · split
      · unfold handleChangeAddress
        split
        · exact h
        · exact h
      · exact h
    · split
      · exact h
      · split
        · split
          · exact handleMeasurement_inv _ _ _ _ h
          · split
            · exact handleMeasurement_inv _ _ _ _ h
            · exact h
        · exact h
    · exact handleExtended_inv _ _ h
    · exact h

theorem process_inv (ctx : SensorCtx) (cmd : List Nat) (h : cacheInv ctx) :
    cacheInv (process ctx cmd).2.1 := by
  unfold process
  split
  · exact h
  · dsimp only
    repeat' split
    all_goals
      first
      | exact h
      | exact processDispatch_inv _ _ ⟨Nat.zero_le _, h.2⟩
      | exact processDispatch_inv _ _ h

/-- C5 (amended): the invariant `data_cache_count ≤ param_count ≤
SDI12_MAX_PARAMS` holds after sdi12_sensor_init and is preserved by
sdi12_sensor_register_param, by sdi12_sensor_process on every command,
and by sdi12_sensor_break; sdi12_sensor_measurement_done clamps the
stored count only to SDI12_MAX_PARAMS, so it preserves the invariant
exactly under the additional hypothesis `min(count, SDI12_MAX_PARAMS) ≤
param_count` (and violates it otherwise, see the counterexample). -/
theorem C5_claim :
    (∀ a i cb ctx, (sensorInit a i cb).2 = some ctx → cacheInv ctx) ∧
    (∀ ctx shef units g d, cacheInv ctx → cacheInv (registerParam ctx shef units g d).2) ∧
    (∀ ctx cmd, cacheInv ctx → cacheInv (process ctx cmd).2.1) ∧
    (∀ ctx values, cacheInv ctx → min values.length MAX_PARAMS ≤ ctx.params.length →
      cacheInv (measurementDone ctx values).2.1) ∧
    (∀ ctx, cacheInv ctx → cacheInv (sensorBreak ctx)) := by
  refine ⟨?_, ?_, process_inv, ?_, ?_⟩
  · intro a i cb ctx hinit
    unfold sensorInit at hinit
    split at hinit
    · cases hinit
    · split at hinit
      · cases hinit
      · dsimp only at hinit
        rw [← Option.some.inj hinit]
        refine ⟨Nat.le_refl _, ?_⟩
        show ([] : List Param).length ≤ MAX_PARAMS
        decide
  · intro ctx shef units g d h
    unfold registerParam
    split
    · exact h
    · split
      · exact h
      · rename_i hfull _
        refine ⟨?_, ?_⟩
        · have := h.1
          simp only [List.length_append, List.length_cons, List.length_nil]
          omega
        · simp only [List.length_append, List.length_cons, List.length_nil]
          unfold MAX_PARAMS at hfull ⊢
          omega
  · intro ctx values h hcount
    unfold measurementDone
    dsimp only
    have hlen : (values.take (min values.length MAX_PARAMS)).length ≤ ctx.params.length := by
      rw [List.length_take]
      omega
    split
    · exact ⟨hlen, h.2⟩
    · split
      · exact ⟨hlen, h.2⟩
      · exact ⟨hlen, h.2⟩
  · intro ctx h
    unfold sensorBreak
    split
    · exact ⟨Nat.zero_le _, h.2⟩
    · exact h

/-- C5 witness: the invariant after init-like fixture state, after a
measurement command, after a break, and after an empty
measurement_done delivery. -/
theorem C5_claim_witness :
    cacheInv (process testCtx [48, 77, 33]).2.1 ∧
    cacheInv (sensorBreak testCtx) ∧
    cacheInv (measurementDone testCtx []).2.1 :=
  ⟨C5_claim.2.2.1 testCtx [48, 77, 33] ⟨by decide, by decide⟩,
   C5_claim.2.2.2.2 testCtx ⟨by decide, by decide⟩,
   C5_claim.2.2.2.1 testCtx [] ⟨by decide, by decide⟩ (by decide)⟩

end Sdi12
